import Mathlib

/-!
Shallow embedding of the Tushle dashboard frontend (React/TypeScript) and of the
small backend fragments the spec describes. Each definition is translated from a
named place in the repository; definitions marked "Modelled from the spec" stand
for repository code that is not present under src/ (the FastAPI backend and the
shared axios client), following the words of the spec.
-/

namespace Tushle

/-- Task status values of the union type of the local Task interface in
frontend/src/pages/Tasks.tsx, line 24:
status: todo | in_progress | review | completed | blocked. -/
inductive TaskStatus
  | todo
  | in_progress
  | review
  | completed
  | blocked
  deriving DecidableEq, Repr, Fintype

/-- The string literal the frontend uses for each status value. -/
def statusString : TaskStatus → String
  | .todo => "todo"
  | .in_progress => "in_progress"
  | .review => "review"
  | .completed => "completed"
  | .blocked => "blocked"

/-- The targets of the status-update buttons rendered for a task in
frontend/src/pages/Tasks.tsx, lines 423-462: a todo task shows Start
(to in_progress), an in_progress task shows Review and Complete, a review task
shows Complete, and a completed or blocked task shows no status button. -/
def statusButtons : TaskStatus → List TaskStatus
  | .todo => [.in_progress]
  | .in_progress => [.review, .completed]
  | .review => [.completed]
  | .completed => []
  | .blocked => []

/-- The targets of the status-update buttons of the TaskManagement page
(src/unnamed/part_004, lines 739-778): the whole button block is guarded by
status not equal to completed, with inner cases for todo, in_progress and
review; statuses there are plain strings. -/
def tmStatusButtons (status : String) : List String :=
  if status = "completed" then []
  else
    (if status = "todo" then ["in_progress"] else []) ++
    (if status = "in_progress" then ["review", "completed"] else []) ++
    (if status = "review" then ["completed"] else [])

/-- Position of a status in the fixed enumeration
todo, in_progress, review, completed (blocked is a terminal side state with no
controls); used to state that controls only move a status forward. -/
def statusRank : TaskStatus → Nat
  | .todo => 0
  | .in_progress => 1
  | .review => 2
  | .completed => 3
  | .blocked => 4

/-- Status union of the shared Task type in frontend/src/types/index.ts,
line 49: status: pending | in_progress | completed | failed. -/
def sharedTaskStatusValues : List String :=
  ["pending", "in_progress", "completed", "failed"]

/-- Status union of the local Task interface in frontend/src/pages/Tasks.tsx,
line 24. -/
def tasksPageStatusValues : List String :=
  ["todo", "in_progress", "review", "completed", "blocked"]

/-- The non-empty values of the status filter select in
frontend/src/pages/Tasks.tsx, lines 301-306. -/
def statusFilterOptions : List String :=
  ["todo", "in_progress", "review", "completed", "blocked"]

/-- The keys of the colors map in getStatusColor, frontend/src/pages/Tasks.tsx,
lines 165-174. -/
def statusColorKeys : List String :=
  ["todo", "in_progress", "review", "completed", "blocked"]

/-- The status strings written by the update controls of both task pages:
the union of all button targets. -/
def writtenStatusValues : List String :=
  (statusButtons .todo ++ statusButtons .in_progress ++ statusButtons .review ++
    statusButtons .completed ++ statusButtons .blocked).map statusString

/-- Claim C1: for every task shown in the task list, the status-update controls
initiate only the forward transitions of the fixed enumeration: todo only to
in_progress; in_progress only to review or completed; review only to completed;
no control for a completed or blocked task; and no control moves a status
backwards. This holds in Tasks.tsx and, with string statuses, in the
TaskManagement page. -/
theorem task_status_controls_forward_only :
    (statusButtons .todo = [.in_progress] ∧
      statusButtons .in_progress = [.review, .completed] ∧
      statusButtons .review = [.completed] ∧
      statusButtons .completed = [] ∧
      statusButtons .blocked = []) ∧
    (∀ s t : TaskStatus, t ∈ statusButtons s → statusRank s < statusRank t) ∧
    (∀ s : TaskStatus, tmStatusButtons (statusString s) = (statusButtons s).map statusString) := by
  refine ⟨⟨rfl, rfl, rfl, rfl, rfl⟩, ?_, ?_⟩ <;> decide

/-- Witness for C1: the Complete button of a review task is a forward move. -/
theorem task_status_controls_forward_only_witness :
    TaskStatus.completed ∈ statusButtons TaskStatus.review ∧
    statusRank TaskStatus.review < statusRank TaskStatus.completed :=
  ⟨by decide,
    task_status_controls_forward_only.2.1 TaskStatus.review TaskStatus.completed (by decide)⟩

/-- Claim C4: the status values the task pages declare, filter by, color and
write all belong to the fixed enumeration of five values, while the shared Task
type in types/index.ts declares the different set
pending, in_progress, completed, failed. -/
theorem task_status_enumeration :
    tasksPageStatusValues = ["todo", "in_progress", "review", "completed", "blocked"] ∧
    statusFilterOptions = tasksPageStatusValues ∧
    statusColorKeys = tasksPageStatusValues ∧
    writtenStatusValues = ["in_progress", "review", "completed", "completed"] ∧
    (writtenStatusValues.all fun v => tasksPageStatusValues.contains v) = true ∧
    sharedTaskStatusValues = ["pending", "in_progress", "completed", "failed"] ∧
    tasksPageStatusValues.contains "pending" = false ∧
    sharedTaskStatusValues.contains "todo" = false ∧
    sharedTaskStatusValues.contains "review" = false ∧
    sharedTaskStatusValues.contains "blocked" = false := by
  decide

/-! ### Request headers (claim C3) -/

/-- Headers of the TaskManagement fetch of /api/v1/tasks/ in
src/unnamed/part_004, lines 246-251: an Authorization bearer header built from
the stored access token, and a Content-Type header. -/
def taskFetchHeaders (token : String) : List (String × String) :=
  [("Authorization", "Bearer " ++ token), ("Content-Type", "application/json")]

/-- Headers of the client-portal form submission POST to
/api/v1/clients/portal/(clientId)/submit in src/unnamed/part_003, lines 35-41:
only a Content-Type header, no Authorization header. -/
def clientPortalSubmitHeaders : List (String × String) :=
  [("Content-Type", "application/json")]

/-- Modelled from the spec: the shared axios instance in
frontend/src/lib/api, which is not included under src/, follows the JWT bearer
auth the spec names; it attaches an Authorization header carrying the stored
access token as a bearer token to the requests it sends. -/
def apiRequestHeaders (token : String) : List (String × String) :=
  [("Authorization", "Bearer " ++ token)]

/-- Claim C3: requests sent through the authenticated paths carry a JWT bearer
Authorization header with the stored access token, while the client-portal form
submission POST sends no Authorization header at all. -/
theorem bearer_auth_headers (token : String) :
    (taskFetchHeaders token).map Prod.fst = ["Authorization", "Content-Type"] ∧
    (taskFetchHeaders token).lookup "Authorization" = some ("Bearer " ++ token) ∧
    (apiRequestHeaders token).lookup "Authorization" = some ("Bearer " ++ token) ∧
    clientPortalSubmitHeaders.map Prod.fst = ["Content-Type"] ∧
    clientPortalSubmitHeaders.lookup "Authorization" = none :=
  ⟨rfl, rfl, rfl, rfl, rfl⟩

/-! ### Task update (claim C5) -/

/-- A JSON value appearing in the task update request body. -/
inductive JsonValue
  | str (s : String)
  | num (q : ℚ)
  deriving DecidableEq, Repr

/-- The body built by updateTaskMutation in frontend/src/pages/Tasks.tsx,
lines 139-147: updateData starts empty, gains a status field when the given
status is truthy (defined and non-empty), and gains an actual_hours field when
the given value is not undefined. -/
def taskUpdateBody (status : Option String) (actualHours : Option ℚ) :
    List (String × JsonValue) :=
  (match status with
    | some s => if s = "" then [] else [("status", JsonValue.str s)]
    | none => []) ++
  (match actualHours with
    | some q => [("actual_hours", JsonValue.num q)]
    | none => [])

/-- A task row, with the fields of the Task interface in
frontend/src/pages/Tasks.tsx, lines 19-37. -/
structure TaskRow where
  id : Nat
  title : String
  description : Option String
  type : String
  status : String
  priority : String
  due_date : Option String
  assigned_to_id : Nat
  assigned_to_name : Option String
  created_by_id : Nat
  created_by_name : Option String
  client_id : Option Nat
  client_name : Option String
  estimated_hours : Option ℚ
  actual_hours : Option ℚ
  created_at : String
  updated_at : Option String
  deriving DecidableEq, Repr

/-- Modelled from the spec: the backend PUT /api/v1/tasks/(id) handler, which
is not included under src/, performs the update the spec states ("update
changes only targeted fields"): it applies exactly the fields present in the
request body to the task row and leaves every other field unchanged. -/
def applyTaskUpdate (row : TaskRow) (body : List (String × JsonValue)) : TaskRow :=
  body.foldl
    (fun r kv =>
      match kv with
      | ("status", JsonValue.str s) => { r with status := s }
      | ("actual_hours", JsonValue.num q) => { r with actual_hours := some q }
      | _ => r)
    row

/-- Claim C5: a task status update with a given (non-empty) status and an
optional actual_hours sends a body holding exactly the provided fields, and
applying that update changes only the targeted fields of the task row. -/
theorem task_update_targets_only_given_fields (row : TaskRow) (s : String)
    (oh : Option ℚ) (hs : s ≠ "") :
    (taskUpdateBody (some s) oh).map Prod.fst =
      (match oh with
        | some _ => ["status", "actual_hours"]
        | none => ["status"]) ∧
    applyTaskUpdate row (taskUpdateBody (some s) oh) =
      { row with
          status := s
          actual_hours :=
            match oh with
            | some q => some q
            | none => row.actual_hours } := by
  cases oh <;> simp [taskUpdateBody, applyTaskUpdate, hs]

/-- A concrete task row used to instantiate theorems. -/
def sampleTaskRow : TaskRow :=
  { id := 7
    title := "Design homepage mockup"
    description := some "First draft"
    type := "design"
    status := "review"
    priority := "high"
    due_date := some "2025-10-20"
    assigned_to_id := 3
    assigned_to_name := some "Jane Doe"
    created_by_id := 1
    created_by_name := some "Admin User"
    client_id := some 11
    client_name := some "TechCorp Solutions"
    estimated_hours := some 8
    actual_hours := none
    created_at := "2025-10-01T09:00:00Z"
    updated_at := none }

/-- Witness for C5: completing a review task sends exactly the status field
and changes only the status field of the row. -/
theorem task_update_targets_only_given_fields_witness :
    (taskUpdateBody (some "completed") none).map Prod.fst = ["status"] ∧
    applyTaskUpdate sampleTaskRow (taskUpdateBody (some "completed") none) =
      { sampleTaskRow with status := "completed" } :=
  task_update_targets_only_given_fields sampleTaskRow "completed" none (by decide)

/-! ### Client creation (claim C6) -/

/-- The client form state in frontend/src/components/ClientForm.tsx,
lines 25-32: exactly these six fields. -/
structure ClientFormData where
  name : String
  email : String
  phone : String
  company : String
  status : String
  onboarding_stage : String
  deriving DecidableEq, Repr

/-- The character list of a string with surrounding whitespace removed; models
the trim calls of the validation in ClientForm.tsx, lines 81-86. -/
def trimChars (cs : List Char) : List Char :=
  ((cs.dropWhile Char.isWhitespace).reverse.dropWhile Char.isWhitespace).reverse

/-- Split a character list at every at sign; models the split of an email into
its local part and domain. -/
def splitOnAt (cs : List Char) : List (List Char) :=
  cs.foldr
    (fun c acc =>
      match acc with
      | [] => [[]]
      | g :: gs => if c = '@' then [] :: g :: gs else (c :: g) :: gs)
    [[]]

/-- The email test of ClientForm.tsx, line 87: one run of
non-whitespace-non-at characters, an at sign, then such a run containing an
interior dot. A string with exactly one at sign splits into the local part and
the domain. -/
def emailTest (s : String) : Bool :=
  match splitOnAt s.toList with
  | [localPart, domain] =>
    !localPart.isEmpty &&
    localPart.all (fun c => !c.isWhitespace && c != '@') &&
    domain.all (fun c => !c.isWhitespace && c != '@') &&
    domain.enum.any (fun ic =>
      ic.2 == '.' && decide (0 < ic.1) && decide (ic.1 + 1 < domain.length))
  | _ => false

/-- A character removed from the phone value before the phone test,
ClientForm.tsx, line 91: whitespace, hyphen or a round bracket. -/
def phoneStripChar (c : Char) : Bool :=
  c.isWhitespace || c == '-' || c == '(' || c == ')'

/-- The stripped phone character list of ClientForm.tsx, line 91. -/
def stripPhone (cs : List Char) : List Char :=
  cs.filter (fun c => !phoneStripChar c)

/-- The phone test of ClientForm.tsx, line 91: an optional plus, a non-zero
digit, then up to fifteen digits. -/
def phoneTest (cs : List Char) : Bool :=
  let cs := if cs.head? == some '+' then cs.tail else cs
  match cs with
  | [] => false
  | d :: rest =>
    d.isDigit && d != '0' && rest.all Char.isDigit && decide (rest.length ≤ 15)

/-- validateForm of ClientForm.tsx, lines 78-97: a trimmed non-empty name, a
trimmed non-empty email passing the email test, and a phone that is either
empty or passes the phone test on its stripped value. -/
def validateClientForm (d : ClientFormData) : Bool :=
  !(trimChars d.name.toList).isEmpty &&
  (!(trimChars d.email.toList).isEmpty && emailTest d.email) &&
  (d.phone.toList.isEmpty || phoneTest (stripPhone d.phone.toList))

/-- The POST /api/v1/clients/ request body sent by createClientMutation,
ClientForm.tsx, lines 38-39: the form data object itself, so exactly the six
form fields. -/
def clientPostBody (d : ClientFormData) : List (String × String) :=
  [("name", d.name), ("email", d.email), ("phone", d.phone),
    ("company", d.company), ("status", d.status),
    ("onboarding_stage", d.onboarding_stage)]

/-- A stored client row as the client list read returns it. -/
structure ClientRow where
  id : Nat
  name : String
  email : String
  phone : String
  company : String
  status : String
  onboarding_stage : String
  deriving DecidableEq, Repr

/-- Modelled from the spec: the backend POST /api/v1/clients/ handler, which
is not included under src/, creates a row holding the submitted field values,
as in the spec ("create then read returns same fields"). -/
def createClient (db : List ClientRow) (newId : Nat) (d : ClientFormData) :
    List ClientRow :=
  db ++ [⟨newId, d.name, d.email, d.phone, d.company, d.status, d.onboarding_stage⟩]

/-- Modelled from the spec: the backend GET /api/v1/clients/ list read, which
is not included under src/, returns the stored rows. -/
def listClients (db : List ClientRow) : List ClientRow := db

/-- Claim C6: for every valid form input, the POST body contains exactly the
six entered fields, and the client list read after the creation contains a row
with those same field values. -/
theorem client_create_read_roundtrip (db : List ClientRow) (n : Nat)
    (d : ClientFormData) (_hvalid : validateClientForm d = true) :
    (clientPostBody d).map Prod.fst =
      ["name", "email", "phone", "company", "status", "onboarding_stage"] ∧
    ∃ row ∈ listClients (createClient db n d),
      row.name = d.name ∧ row.email = d.email ∧ row.phone = d.phone ∧
      row.company = d.company ∧ row.status = d.status ∧
      row.onboarding_stage = d.onboarding_stage := by
  refine ⟨rfl,
    ⟨⟨n, d.name, d.email, d.phone, d.company, d.status, d.onboarding_stage⟩,
      ?_, rfl, rfl, rfl, rfl, rfl, rfl⟩⟩
  simp [listClients, createClient]

/-- A concrete valid client form input. -/
def sampleClientForm : ClientFormData :=
  { name := "Ada Lovelace"
    email := "ada@example.com"
    phone := ""
    company := "Acme"
    status := "pending"
    onboarding_stage := "initial" }

/-- Witness for C6: the sample input passes validation and the roundtrip
property holds for it on an empty database. -/
theorem client_create_read_roundtrip_witness :
    validateClientForm sampleClientForm = true ∧
    ((clientPostBody sampleClientForm).map Prod.fst =
        ["name", "email", "phone", "company", "status", "onboarding_stage"] ∧
      ∃ row ∈ listClients (createClient [] 1 sampleClientForm),
        row.name = sampleClientForm.name ∧ row.email = sampleClientForm.email ∧
        row.phone = sampleClientForm.phone ∧
        row.company = sampleClientForm.company ∧
        row.status = sampleClientForm.status ∧
        row.onboarding_stage = sampleClientForm.onboarding_stage) :=
  ⟨by decide, client_create_read_roundtrip [] 1 sampleClientForm (by decide)⟩

/-! ### Trending topics ranking (claim C7) -/

/-- A trending topic, with the fields of the TrendingTopic interface in
src/unnamed/part_003, lines 277-287; the popularity score is the numeric score
the comparator reads. -/
structure TrendingTopic where
  title : String
  description : String
  popularity_score : ℚ
  keywords : List String
  hashtags : List String
  engagement_potential : String
  source : String
  trending_since : String
  deriving DecidableEq, Repr

/-- The order the sort comparator of src/unnamed/part_003, line 721 induces:
the comparator (a, b) => b.popularity_score - a.popularity_score places a
before b exactly when the score of a is at least the score of b. -/
def topicGe (a b : TrendingTopic) : Prop :=
  b.popularity_score ≤ a.popularity_score

instance : DecidableRel topicGe :=
  fun a b =>
    inferInstanceAs (Decidable (b.popularity_score ≤ a.popularity_score))

instance : IsTotal TrendingTopic topicGe :=
  ⟨fun a b => le_total b.popularity_score a.popularity_score⟩

instance : IsTrans TrendingTopic topicGe :=
  ⟨fun _ _ _ hab hbc => le_trans hbc hab⟩

/-- The list the Trending Topics tab renders, src/unnamed/part_003,
lines 713-726: trending_topics sorted with the comparator
(a, b) => b.popularity_score - a.popularity_score, modelled by sorting with
the order that comparator induces. -/
def displayedTrendingTopics (ts : List TrendingTopic) : List TrendingTopic :=
  List.insertionSort topicGe ts

/-- Claim C7: the list rendered in the Trending Topics tab is sorted in
non-increasing order of popularity score: every earlier displayed topic has a
popularity score at least that of every later one, so in particular each
adjacent pair is ordered. -/
theorem trending_topics_sorted_desc (ts : List TrendingTopic) :
    List.Chain' (fun a b => b.popularity_score ≤ a.popularity_score)
      (displayedTrendingTopics ts) :=
  (List.sorted_insertionSort topicGe ts).chain'

/-! ### ProtectedRoute (claim C8) and auth start-up (claim C9) -/

/-- A user, with the fields of the User interface in
frontend/src/types/index.ts, lines 1-7. -/
structure User where
  id : Nat
  email : String
  full_name : String
  role : String
  is_active : Bool
  deriving DecidableEq, Repr

/-- What ProtectedRoute can render. -/
inductive RouteRender
  | spinner
  | redirectToLogin
  | pageChildren
  deriving DecidableEq, Repr

/-- ProtectedRoute in src/unnamed/part_001, lines 23-39: while loading it
renders a spinner; otherwise, with no user, a redirect to /login; otherwise
its children. -/
def protectedRoute (loading : Bool) (user : Option User) : RouteRender :=
  if loading then RouteRender.spinner
  else if user.isNone then RouteRender.redirectToLogin
  else RouteRender.pageChildren

/-- A concrete user used to instantiate theorems. -/
def sampleUser : User :=
  { id := 1
    email := "admin@tushle.com"
    full_name := "Admin User"
    role := "admin"
    is_active := true }

/-- Counterexample to claim C8 as stated: with loading true and a non-null
user, ProtectedRoute renders the spinner, not its children, so it does not
render its children exactly when the user is non-null. -/
theorem protected_route_children_counterexample :
    protectedRoute true (some sampleUser) = RouteRender.spinner ∧
    decide (protectedRoute true (some sampleUser) = RouteRender.pageChildren) = false :=
  ⟨rfl, rfl⟩

/-- Claim C8 as amended: if loading is true ProtectedRoute renders only the
spinner; if loading is false and the user is null it renders the redirect to
/login; and it renders its children exactly when loading is false and the user
is non-null. In particular it never renders the children without a user. -/
theorem protected_route_amended (loading : Bool) (user : Option User) :
    (loading = true → protectedRoute loading user = RouteRender.spinner) ∧
    (loading = false → user = none →
      protectedRoute loading user = RouteRender.redirectToLogin) ∧
    (protectedRoute loading user = RouteRender.pageChildren ↔
      loading = false ∧ user.isSome = true) := by
  cases loading <;> cases user <;> simp [protectedRoute]

/-- Witness for the amended C8: with loading over and a logged-in user, the
children are rendered. -/
theorem protected_route_amended_witness :
    protectedRoute false (some sampleUser) = RouteRender.pageChildren :=
  (protected_route_amended false (some sampleUser)).2.2.mpr ⟨rfl, rfl⟩

/-- An API error as the frontend sees it. -/
structure ApiError where
  message : String
  deriving DecidableEq, Repr

/-- The state the AuthProvider start-up effect leaves behind: the token still
in localStorage, the user state, and the loading state. -/
structure AuthInitResult where
  storedToken : Option String
  user : Option User
  loading : Bool
  deriving DecidableEq, Repr

/-- The AuthProvider start-up effect of
frontend/src/contexts/AuthContext.tsx, lines 27-44: with no stored token it
only clears loading; with a stored token it calls GET /api/v1/auth/me, sets
the user on success, removes the stored token on failure, and clears loading
in both cases. -/
def initAuth (storedToken : Option String) (verify : Except ApiError User) :
    AuthInitResult :=
  match storedToken with
  | none => ⟨none, none, false⟩
  | some t =>
    match verify with
    | Except.ok u => ⟨some t, some u, false⟩
    | Except.error _ => ⟨none, none, false⟩

/-- Claim C9: if a token is stored and the verification call fails, the stored
token is removed, the user stays null and loading becomes false; and the user
ends up non-null only when the verification call succeeds with that user. -/
theorem auth_init_failure_clears_token :
    (∀ (t : String) (e : ApiError),
      initAuth (some t) (Except.error e) = ⟨none, none, false⟩) ∧
    (∀ (tok : Option String) (verify : Except ApiError User) (u : User),
      (initAuth tok verify).user = some u → verify = Except.ok u) := by
  refine ⟨fun t e => rfl, ?_⟩
  intro tok verify u h
  cases tok with
  | none => simp [initAuth] at h
  | some t =>
    cases verify with
    | ok v =>
      simp only [initAuth, Option.some.injEq] at h
      rw [h]
    | error e => simp [initAuth] at h

/-- Witness for C9: a failing verification clears everything, and a user is
only set by a successful verification. -/
theorem auth_init_failure_clears_token_witness :
    initAuth (some "jwt-token") (Except.error ⟨"401 Unauthorized"⟩) =
      ⟨none, none, false⟩ ∧
    (Except.ok sampleUser : Except ApiError User) = Except.ok sampleUser :=
  ⟨auth_init_failure_clears_token.1 "jwt-token" ⟨"401 Unauthorized"⟩,
    auth_init_failure_clears_token.2 (some "jwt-token") (Except.ok sampleUser)
      sampleUser rfl⟩

/-! ### Meeting list filters (claim C10) -/

/-- A meeting, with the fields of the Meeting interface in
src/unnamed/part_006, lines 472-488; start and end times are the instants the
page compares with the current time, as integers. -/
structure Meeting where
  id : Nat
  title : String
  description : Option String
  start_time : Int
  end_time : Int
  type : String
  status : String
  location : Option String
  meeting_url : Option String
  assigned_to_id : Nat
  assigned_to_name : String
  client_id : Option Nat
  client_name : Option String
  lead_id : Option Nat
  lead_name : Option String
  deriving DecidableEq, Repr

/-- The filter predicate of filteredMeetings in src/unnamed/part_006,
lines 760-765: all keeps everything, upcoming keeps a strictly later start
time, past keeps a strictly earlier start time, and any other filter value
compares the meeting status with it. -/
def meetingFilterPred (filt : String) (now : Int) (m : Meeting) : Bool :=
  if filt = "all" then true
  else if filt = "upcoming" then decide (now < m.start_time)
  else if filt = "past" then decide (m.start_time < now)
  else m.status == filt

/-- The filtered meeting list of src/unnamed/part_006, lines 759-765. -/
def filteredMeetings (filt : String) (now : Int) (meetings : List Meeting) :
    List Meeting :=
  meetings.filter (meetingFilterPred filt now)

/-- Claim C10: the upcoming and past filters use strict comparisons against
the current time, a meeting starting exactly now is kept by neither, and the
all filter keeps every meeting. -/
theorem meeting_filters_strict (now : Int) (ms : List Meeting) (m : Meeting) :
    filteredMeetings "all" now ms = ms ∧
    (m ∈ filteredMeetings "upcoming" now ms ↔ m ∈ ms ∧ now < m.start_time) ∧
    (m ∈ filteredMeetings "past" now ms ↔ m ∈ ms ∧ m.start_time < now) ∧
    (m.start_time = now →
      meetingFilterPred "upcoming" now m = false ∧
      meetingFilterPred "past" now m = false) := by
  refine ⟨?_, ?_, ?_, ?_⟩
  · exact List.filter_eq_self.mpr fun a _ => rfl
  · simp [filteredMeetings, List.mem_filter, meetingFilterPred]
  · simp [filteredMeetings, List.mem_filter, meetingFilterPred]
  · intro h
    simp [meetingFilterPred, h]

/-- A concrete meeting used to instantiate theorems. -/
def sampleMeeting : Meeting :=
  { id := 1
    title := "Kickoff call"
    description := none
    start_time := 0
    end_time := 3600000
    type := "video_call"
    status := "scheduled"
    location := none
    meeting_url := none
    assigned_to_id := 2
    assigned_to_name := "Jane Doe"
    client_id := some 11
    client_name := some "TechCorp Solutions"
    lead_id := none
    lead_name := none }

/-- Witness for C10: a meeting starting exactly now is kept by neither the
upcoming nor the past filter. -/
theorem meeting_filters_strict_witness :
    meetingFilterPred "upcoming" 0 sampleMeeting = false ∧
    meetingFilterPred "past" 0 sampleMeeting = false :=
  (meeting_filters_strict 0 [sampleMeeting] sampleMeeting).2.2.2 rfl

/-! ### Query error fallbacks (claim C2) -/

/-- A month with a task count, as in the tasks_by_month mock entries. -/
structure MonthCount where
  month : String
  count : Nat
  deriving DecidableEq, Repr

/-- A priority with a task count, as in the tasks_by_priority mock entries. -/
structure PriorityCount where
  priority : String
  count : Nat
  deriving DecidableEq, Repr

/-- A recent task, as in the recent_tasks mock entry. -/
structure RecentTask where
  id : Nat
  title : String
  status : String
  priority : String
  type : String
  due_date : String
  created_at : String
  deriving DecidableEq, Repr

/-- Task analytics, with the fields of the TaskAnalytics interface in
frontend/src/pages/EmployeeProfile.tsx. -/
structure TaskAnalytics where
  total_tasks : Nat
  completed_tasks : Nat
  in_progress_tasks : Nat
  overdue_tasks : Nat
  total_hours_logged : ℚ
  avg_completion_time : ℚ
  productivity_score : ℚ
  tasks_by_month : List MonthCount
  tasks_by_priority : List PriorityCount
  recent_tasks : List RecentTask
  deriving DecidableEq, Repr

/-- The mock object the task analytics query returns on failure,
EmployeeProfile.tsx, lines 113-141; its recent task carries the current time
as an ISO string. -/
def mockTaskAnalytics (nowIso : String) : TaskAnalytics :=
  { total_tasks := 8
    completed_tasks := 5
    in_progress_tasks := 2
    overdue_tasks := 1
    total_hours_logged := 42.5
    avg_completion_time := 6.2
    productivity_score := 85.5
    tasks_by_month := [⟨"Sep 2025", 3⟩, ⟨"Oct 2025", 5⟩]
    tasks_by_priority := [⟨"high", 3⟩, ⟨"medium", 4⟩, ⟨"low", 1⟩]
    recent_tasks :=
      [⟨1, "Design homepage mockup", "completed", "high", "design", nowIso, nowIso⟩] }

/-- A month with an earned amount, as in the monthly_earnings mock entries. -/
structure MonthAmount where
  month : String
  amount : ℚ
  deriving DecidableEq, Repr

/-- A project with an earned amount, as in the project_earnings mock
entries. -/
structure ProjectAmount where
  project : String
  amount : ℚ
  deriving DecidableEq, Repr

/-- Finance analytics, with the fields of the FinanceAnalytics interface in
EmployeeProfile.tsx. -/
structure FinanceAnalytics where
  total_revenue_generated : ℚ
  billable_hours : ℚ
  hourly_rate : ℚ
  monthly_earnings : List MonthAmount
  project_earnings : List ProjectAmount
  efficiency_rating : ℚ
  deriving DecidableEq, Repr

/-- The mock object the finance analytics query returns on failure,
EmployeeProfile.tsx, lines 156-171. -/
def mockFinanceAnalytics : FinanceAnalytics :=
  { total_revenue_generated := 15750
    billable_hours := 210
    hourly_rate := 75
    monthly_earnings :=
      [⟨"Aug 2025", 5250⟩, ⟨"Sep 2025", 6000⟩, ⟨"Oct 2025", 4500⟩]
    project_earnings :=
      [⟨"TechCorp Solutions", 7500⟩, ⟨"Marketing Pro Agency", 4250⟩,
        ⟨"StartupXYZ", 4000⟩]
    efficiency_rating := 4.2 }

/-- A project entry of the project analytics; dates are instants in
milliseconds, as produced by Date.now() arithmetic in the mock. -/
structure ProjectEntry where
  id : Nat
  name : String
  status : String
  progress : Nat
  client : String
  start_date : Int
  end_date : Option Int
  budget : ℚ
  deriving DecidableEq, Repr

/-- Project analytics, with the fields of the ProjectAnalytics interface in
EmployeeProfile.tsx. -/
structure ProjectAnalytics where
  active_projects : Nat
  completed_projects : Nat
  total_projects : Nat
  project_success_rate : ℚ
  projects : List ProjectEntry
  deriving DecidableEq, Repr

/-- One day in milliseconds, the unit of the date arithmetic in the project
mock. -/
def dayMs : Int := 24 * 60 * 60 * 1000

/-- The mock object the project analytics query returns on failure,
EmployeeProfile.tsx, lines 186-212; its dates are offsets from the current
time in milliseconds. -/
def mockProjectAnalytics (nowMs : Int) : ProjectAnalytics :=
  { active_projects := 2
    completed_projects := 3
    total_projects := 5
    project_success_rate := 90
    projects :=
      [⟨1, "TechCorp Website Redesign", "in_progress", 75, "TechCorp Solutions",
          nowMs - 30 * dayMs, none, 15000⟩,
        ⟨2, "Marketing Campaign", "completed", 100, "Marketing Pro Agency",
          nowMs - 60 * dayMs, some (nowMs - 10 * dayMs), 8000⟩] }

/-- A month with generated and converted lead counts, as in the monthly_leads
mock entries. -/
structure MonthLeads where
  month : String
  leads : Nat
  converted : Nat
  deriving DecidableEq, Repr

/-- A lead source with a count, as in the lead_sources mock entries. -/
structure SourceCount where
  source : String
  count : Nat
  deriving DecidableEq, Repr

/-- Lead analytics, with the fields of the LeadAnalytics interface in
EmployeeProfile.tsx, lines 82-89. -/
structure LeadAnalytics where
  leads_generated : Nat
  leads_converted : Nat
  conversion_rate : ℚ
  monthly_leads : List MonthLeads
  lead_sources : List SourceCount
  avg_lead_value : ℚ
  deriving DecidableEq, Repr

/-- The mock object the lead analytics query returns on failure,
EmployeeProfile.tsx, lines 227-243. -/
def mockLeadAnalytics : LeadAnalytics :=
  { leads_generated := 24
    leads_converted := 18
    conversion_rate := 75
    monthly_leads :=
      [⟨"Aug 2025", 8, 6⟩, ⟨"Sep 2025", 10, 8⟩, ⟨"Oct 2025", 6, 4⟩]
    lead_sources :=
      [⟨"referral", 8⟩, ⟨"website", 6⟩, ⟨"social_media", 5⟩, ⟨"email", 5⟩]
    avg_lead_value := 1250 }

/-- The task analytics query of EmployeeProfile.tsx, lines 104-145: it returns
the API data, and on any API failure it returns the mock object instead. -/
def taskAnalyticsQueryFn (nowIso : String)
    (apiResult : Except ApiError TaskAnalytics) : Except ApiError TaskAnalytics :=
  match apiResult with
  | Except.ok d => Except.ok d
  | Except.error _ => Except.ok (mockTaskAnalytics nowIso)

/-- The finance analytics query of EmployeeProfile.tsx, lines 148-175, with
its mock fallback. -/
def financeAnalyticsQueryFn (apiResult : Except ApiError FinanceAnalytics) :
    Except ApiError FinanceAnalytics :=
  match apiResult with
  | Except.ok d => Except.ok d
  | Except.error _ => Except.ok mockFinanceAnalytics

/-- The project analytics query of EmployeeProfile.tsx, lines 178-216, with
its mock fallback. -/
def projectAnalyticsQueryFn (nowMs : Int)
    (apiResult : Except ApiError ProjectAnalytics) :
    Except ApiError ProjectAnalytics :=
  match apiResult with
  | Except.ok d => Except.ok d
  | Except.error _ => Except.ok (mockProjectAnalytics nowMs)

/-- The lead analytics query of EmployeeProfile.tsx, lines 219-247, with its
mock fallback. -/
def leadAnalyticsQueryFn (apiResult : Except ApiError LeadAnalytics) :
    Except ApiError LeadAnalytics :=
  match apiResult with
  | Except.ok d => Except.ok d
  | Except.error _ => Except.ok mockLeadAnalytics

/-- The response data of GET /api/v1/tasks/ as the task pages read it: the
items list and the pagination fields. -/
structure TasksPageData where
  items : List TaskRow
  total : Nat
  page : Nat
  pages : Nat
  deriving DecidableEq, Repr

/-- The tasks-list query of frontend/src/pages/Tasks.tsx, lines 88-99: the
query function awaits the API call and returns its data with no catch, so a
failure propagates unchanged. -/
def taskListQueryFn (apiResult : Except ApiError TasksPageData) :
    Except ApiError TasksPageData :=
  apiResult

/-- The employee query of EmployeeProfile.tsx, lines 97-101: the query
function returns the API data with no catch, so a failure propagates
unchanged. -/
def employeeQueryFn (apiResult : Except ApiError User) :
    Except ApiError User :=
  apiResult

/-- A concrete failing API result. -/
def apiFailure : ApiError := ⟨"500 Internal Server Error"⟩

/-- Whether a query result is a success carrying data. -/
def resolvedWithData {α : Type} (r : Except ApiError α) : Bool :=
  match r with
  | Except.ok _ => true
  | Except.error _ => false

/-- Counterexample to claim C2 as stated: when the API call of the tasks-list
query on the Tasks page fails, the query surfaces the error and does not
resolve to any data object. -/
theorem frontend_mock_fallback_counterexample :
    taskListQueryFn (Except.error apiFailure) = Except.error apiFailure ∧
    resolvedWithData (taskListQueryFn (Except.error apiFailure)) = false :=
  ⟨rfl, rfl⟩

/-- Claim C2 as amended: exactly the four analytics queries of the employee
profile page fall back to a hard-coded mock object when their API call fails;
other data-fetching queries, such as the tasks-list query on the Tasks page
and the employee query on the profile page, surface the failure instead. -/
theorem analytics_queries_mock_fallback (e : ApiError) (nowIso : String)
    (nowMs : Int) :
    taskAnalyticsQueryFn nowIso (Except.error e) =
      Except.ok (mockTaskAnalytics nowIso) ∧
    financeAnalyticsQueryFn (Except.error e) = Except.ok mockFinanceAnalytics ∧
    projectAnalyticsQueryFn nowMs (Except.error e) =
      Except.ok (mockProjectAnalytics nowMs) ∧
    leadAnalyticsQueryFn (Except.error e) = Except.ok mockLeadAnalytics ∧
    taskListQueryFn (Except.error e) = Except.error e ∧
    employeeQueryFn (Except.error e) = Except.error e ∧
    (∀ d : TaskAnalytics,
      taskAnalyticsQueryFn nowIso (Except.ok d) = Except.ok d) :=
  ⟨rfl, rfl, rfl, rfl, rfl, rfl, fun _ => rfl⟩

end Tushle
